import Mathlib

/-!
Shallow embedding of the token cookie lifecycle manager implemented in
src/lib/cookie_storage.ts (class AuthCookieStorage), together with proofs
about its operations.

Modelling conventions:
- The cookie transport (the npm cookie library plus document.cookie) is
  modelled at its interface boundary: serialize produces a structured
  SerializedCookie record (name, value and the attributes the source ever
  passes), and the cookie string the browser reports back is the list of
  name/value pairs of the cookies just written, parsed by first-match lookup.
- Dates are milliseconds since the epoch (Int). The external date library's
  "add one year to now" computation is an environment datum (Env.oneYearFromNow),
  and "typeof window" is the Env.client_side flag.
- The claims decoder (jwt-decode) is an explicit capability parameter: a
  function from the optional id_token to Except, failing on malformed or
  missing tokens. Decoded claims are an association list of claim names to
  numbers; the code only ever reads the exp claim.
- Fields of the class instance that can be undefined at runtime are Options.
  Methods are state-passing functions; a method that can throw returns Except,
  and clearTokens (whose JS return value can be undefined) returns its result
  in a record that separates the post-call instance state, the JS return
  value, the serialized cookie writes, and the console error log.
-/

namespace AuthCookie

/-- One cookie as produced by the transport's serialize capability: a name,
a value, and exactly the attributes the source ever sets (expires in
milliseconds since the epoch, maxAge in seconds, path). An attribute the
source leaves undefined is none. -/
structure SerializedCookie where
  name : String
  value : String
  expires : Option Int
  maxAge : Option Int
  path : Option String
  deriving DecidableEq

/-- A raw cookie header string at the granularity the transport interface
exposes: the list of name/value pairs its parse capability would return
(first occurrence of a name wins, as in the transport's parse). The empty
string corresponds to the empty list. -/
abbrev CookieStr := List (String × String)

/-- Decoded claims mapping of the identity token, as an association list from
claim name to numeric value; the code only ever reads the exp claim, which is
numeric (seconds since the epoch). The empty mapping is the empty list. -/
abbrev Claims := List (String × Int)

/-- Decoder capability (jwt-decode): decodes the current id_token, which may
be undefined, and fails on a missing, malformed or non-token input. -/
abbrev Decoder := Option String → Except Unit Claims

/-- Execution environment: whether a browser window exists (typeof window),
the current clock in milliseconds (new Date()), and the result of the external
date library adding one calendar year to the current date. -/
structure Env where
  client_side : Bool
  now : Int
  oneYearFromNow : Int
  deriving DecidableEq

/-- The DAY constant of the source: the number of seconds in a day. -/
def DAY : Int := 60 * 60 * 24

/-- Instance state of the AuthCookieStorage class. The pfx field embeds the
cookie-name namespace the constructor receives (called "prefix" in the
source); token fields, persist, user and cookie_string start undefined. -/
structure AuthCookieStorage where
  pfx : String
  id_token : Option String
  access_token : Option String
  refresh_token : Option String
  persist : Option Bool
  user : Option Claims
  cookie_string : Option CookieStr
  deriving DecidableEq

/-- JavaScript falsiness of an optional cookie string: undefined and the
empty string are falsy. -/
def jsFalsyCookieStr : Option CookieStr → Bool
  | none => true
  | some s => s.isEmpty

/-- JavaScript Boolean coercion of an optional string (the keep cookie value):
undefined and the empty string coerce to false, every other string to true. -/
def jsTruthyStr : Option String → Bool
  | none => false
  | some v => !v.isEmpty

/-- Method getTokens. The argument is none when the caller passes no cookie
string, in which case the default is the instance's cached cookie_string.
If the effective argument and the cached string are both falsy the method
returns this unchanged; otherwise it caches the string, parses it and
overwrites the four fields, deriving persist from the truthiness of the keep
cookie value. -/
def getTokens (arg : Option CookieStr) (s : AuthCookieStorage) : AuthCookieStorage :=
  let cs := match arg with
    | none => s.cookie_string
    | some v => some v
  if jsFalsyCookieStr cs && jsFalsyCookieStr s.cookie_string then s
  else
    let cookies := cs.getD []
    { s with
      cookie_string := cs,
      access_token := cookies.lookup (s.pfx ++ ":access_token"),
      id_token := cookies.lookup (s.pfx ++ ":id_token"),
      refresh_token := cookies.lookup (s.pfx ++ ":refresh_token"),
      persist := some (jsTruthyStr (cookies.lookup (s.pfx ++ ":keep"))) }

/-- Constructor: stores the namespace, and when a truthy cookie string is
given, caches it and immediately reads the tokens from it. -/
def mkAuthCookieStorage (pfx : String) (cookie_string : Option CookieStr) :
    AuthCookieStorage :=
  let base : AuthCookieStorage := ⟨pfx, none, none, none, none, none, none⟩
  match cookie_string with
  | none => base
  | some cs =>
    if cs.isEmpty then base
    else getTokens (some cs) { base with cookie_string := some cs }

/-- Argument record of setTokens; persist is optional. -/
structure SetTokenProps where
  id_token : String
  access_token : String
  refresh_token : String
  persist : Option Bool
  deriving DecidableEq

/-- Method setTokens. Outside a browser context it throws (Except.error with
the thrown message). Otherwise it serializes the three token cookies, and a
fourth keep cookie with value "true" when persist is truthy, with expires one
year from now and maxAge 365 * DAY exactly when persist is truthy; it updates
the instance fields and returns the updated instance together with the list
of cookie writes, in write order. -/
def setTokens (env : Env) (p : SetTokenProps) (s : AuthCookieStorage) :
    Except String (AuthCookieStorage × List SerializedCookie) :=
  if !env.client_side then
    Except.error ("Trying to set cookie in a server-side environment")
  else
    let persistB := p.persist.getD false
    let optExpires := if persistB then some env.oneYearFromNow else none
    let optMaxAge := if persistB then some (365 * DAY) else none
    let base : List SerializedCookie :=
      [⟨s.pfx ++ ":id_token", p.id_token, optExpires, optMaxAge, none⟩,
       ⟨s.pfx ++ ":access_token", p.access_token, optExpires, optMaxAge, none⟩,
       ⟨s.pfx ++ ":refresh_token", p.refresh_token, optExpires, optMaxAge, none⟩]
    let writes :=
      if persistB then
        base ++ [⟨s.pfx ++ ":keep", "true", optExpires, optMaxAge, none⟩]
      else base
    Except.ok
      ({ s with
          access_token := some p.access_token,
          id_token := some p.id_token,
          refresh_token := some p.refresh_token,
          persist := some persistB }, writes)

/-- Result of clearTokens: the instance state after the call, the JS return
value (none models returning undefined, some models returning this), the
serialized cookie writes in write order, and the console error log. -/
structure ClearResult where
  state : AuthCookieStorage
  ret : Option AuthCookieStorage
  writes : List SerializedCookie
  log : List String
  deriving DecidableEq

/-- Method clearTokens. Outside a browser context it logs an error and
returns undefined without writing. Otherwise it serializes the four
namespaced cookie names with the empty value, expires set to new Date()
(the current instant) and path "/", and returns this. It never mutates the
instance fields. -/
def clearTokens (env : Env) (s : AuthCookieStorage) : ClearResult :=
  if !env.client_side then
    ⟨s, none, [], [("Trying to remove cookie in a server-side environment")]⟩
  else
    let names := [s.pfx ++ ":access_token", s.pfx ++ ":id_token",
                  s.pfx ++ ":refresh_token", s.pfx ++ ":keep"]
    ⟨s, some s, names.map (fun n => ⟨n, "", some env.now, none, some ("/")⟩), []⟩

/-- Method decode: tries the decoder on the current id_token; on success the
user field becomes the decoded payload, on any failure it becomes the empty
mapping. The try/catch of the source is the match on the Except. -/
def decode (d : Decoder) (s : AuthCookieStorage) : AuthCookieStorage :=
  match d s.id_token with
  | Except.ok u => { s with user := some u }
  | Except.error _ => { s with user := some ([] : Claims) }

/-- Method isExpired: decodes afresh, destructures the exp claim, returns
false when exp is falsy (absent or zero), else compares the current time
strictly against exp * 1000 milliseconds (the strict isAfter of the date
library). -/
def isExpired (d : Decoder) (now : Int) (s : AuthCookieStorage) : Bool :=
  match ((decode d s).user.getD []).lookup ("exp") with
  | none => false
  | some e => if e == 0 then false else decide (e * 1000 < now)

/-- The cookie string the transport reports after a list of writes, at the
parse interface granularity: the written name/value pairs (the browser
stores name and value; attribute round-tripping through value encoding is
the transport's contract). -/
def reported (writes : List SerializedCookie) : CookieStr :=
  writes.map (fun c => (c.name, c.value))

/-- Sample browser-context environment: clock at 1000 ms, one year ahead at an
arbitrary later instant. -/
def envClient : Env := ⟨true, 1000, 32536000000⟩

/-- Sample server-side environment (no browser window). -/
def envServer : Env := ⟨false, 1000, 32536000000⟩

/-- Sample store holding an id_token, for decoder-driven scenarios. -/
def sampleStore : AuthCookieStorage := ⟨"app", some ("tok"), none, none, none, none, none⟩

/-- Decoder that decodes every token to a payload whose exp claim is 0. -/
def decoderExpZero : Decoder := fun _ => Except.ok [(("exp"), 0)]

/-- Decoder that decodes every token to a payload whose exp claim is 1000. -/
def decoderExp1000 : Decoder := fun _ => Except.ok [(("exp"), 1000)]

/-- Decoder that fails on every input. -/
def decoderFail : Decoder := fun _ => Except.error ()

/-- Decoder producing a payload with exp 0 next to another claim. -/
def decoderZeroIat : Decoder := fun _ => Except.ok [(("exp"), 0), (("iat"), 5)]

/-- Sample setTokens argument with persist true. -/
def sampleProps : SetTokenProps := ⟨"idv", "accv", "refv", some true⟩

/-- A store as constructed with a namespace and no cookie string. -/
def freshStore : AuthCookieStorage := mkAuthCookieStorage ("app") none

/-- The instance state setTokens produces from freshStore and sampleProps. -/
def persistedStore : AuthCookieStorage :=
  ⟨"app", some ("idv"), some ("accv"), some ("refv"), some true, none, none⟩

/-- The cookie writes setTokens produces from freshStore and sampleProps
under envClient. -/
def persistedWrites : List SerializedCookie :=
  [⟨"app:id_token", "idv", some 32536000000, some 31536000, none⟩,
   ⟨"app:access_token", "accv", some 32536000000, some 31536000, none⟩,
   ⟨"app:refresh_token", "refv", some 32536000000, some 31536000, none⟩,
   ⟨"app:keep", "true", some 32536000000, some 31536000, none⟩]

/-! Helper lemmas about string concatenation with a common namespace, used to
tell the four namespaced cookie names apart for an arbitrary namespace. -/

theorem string_data_append (a b : String) : (a ++ b).data = a.data ++ b.data := by
  cases a; cases b; rfl

theorem string_append_cancel_left (p a b : String) (h : p ++ a = p ++ b) : a = b := by
  have hd : p.data ++ a.data = p.data ++ b.data := by
    have h2 := congrArg String.data h
    simpa [string_data_append] using h2
  have h3 : a.data = b.data := List.append_cancel_left hd
  cases a; cases b; exact congrArg String.mk h3

theorem string_append_ne (p : String) {a b : String} (h : a ≠ b) :
    p ++ a ≠ p ++ b := fun he => h (string_append_cancel_left p a b he)

theorem beq_string_append_ne (p : String) {a b : String} (h : a ≠ b) :
    ((p ++ a) == (p ++ b)) = false :=
  beq_eq_false_iff_ne.mpr (string_append_ne p h)

/-- C1: for every namespace and every token triplet with a persist flag, the
fields read back by getTokens from the cookie string the transport reports
after setTokens (exactly the serialized cookies just written) are the same
three token strings and the same persist boolean. -/
theorem setTokens_getTokens_roundtrip (env : Env) (p : SetTokenProps)
    (s s' : AuthCookieStorage) (w : List SerializedCookie) (b : Bool)
    (hp : p.persist = some b)
    (hs : setTokens env p s = Except.ok (s', w)) :
    (getTokens (some (reported w)) s').id_token = some p.id_token ∧
    (getTokens (some (reported w)) s').access_token = some p.access_token ∧
    (getTokens (some (reported w)) s').refresh_token = some p.refresh_token ∧
    (getTokens (some (reported w)) s').persist = some b := by
  have nAI := beq_string_append_ne s.pfx (a := ":access_token") (b := ":id_token") (by decide)
  have nRI := beq_string_append_ne s.pfx (a := ":refresh_token") (b := ":id_token") (by decide)
  have nRA := beq_string_append_ne s.pfx (a := ":refresh_token") (b := ":access_token") (by decide)
  have nKI := beq_string_append_ne s.pfx (a := ":keep") (b := ":id_token") (by decide)
  have nKA := beq_string_append_ne s.pfx (a := ":keep") (b := ":access_token") (by decide)
  have nKR := beq_string_append_ne s.pfx (a := ":keep") (b := ":refresh_token") (by decide)
  have htrue : String.isEmpty ("true") = false := by decide
  cases hc : env.client_side with
  | false => simp [setTokens, hc] at hs
  | true =>
    cases b with
    | true =>
      simp [setTokens, hc, hp] at hs
      obtain ⟨h1, h2⟩ := hs
      subst h1
      subst h2
      simp [getTokens, reported, jsFalsyCookieStr, jsTruthyStr, List.lookup,
        nAI, nRI, nRA, nKI, nKA, nKR, htrue]
    | false =>
      simp [setTokens, hc, hp] at hs
      obtain ⟨h1, h2⟩ := hs
      subst h1
      subst h2
      simp [getTokens, reported, jsFalsyCookieStr, jsTruthyStr, List.lookup,
        nAI, nRI, nRA, nKI, nKA, nKR]

/-- C1 witness: the round trip at a concrete namespace, triplet and persist
flag. -/
theorem setTokens_getTokens_roundtrip_witness :
    (getTokens (some (reported persistedWrites)) persistedStore).id_token = some ("idv") ∧
    (getTokens (some (reported persistedWrites)) persistedStore).access_token = some ("accv") ∧
    (getTokens (some (reported persistedWrites)) persistedStore).refresh_token = some ("refv") ∧
    (getTokens (some (reported persistedWrites)) persistedStore).persist = some true :=
  setTokens_getTokens_roundtrip envClient sampleProps freshStore persistedStore
    persistedWrites true rfl rfl

/-- C2: when persist is true, setTokens writes the three token cookies and a
fourth keep cookie of value "true", every one of them with expires one year
from now and maxAge 365 * 86400 seconds; when persist is false or omitted,
exactly the three token cookies are written, none carries an expires or
maxAge attribute, and no keep cookie is written. -/
theorem setTokens_persist_policy (env : Env) (p : SetTokenProps)
    (s s' : AuthCookieStorage) (w : List SerializedCookie)
    (hs : setTokens env p s = Except.ok (s', w)) :
    (p.persist = some true →
      w = [⟨s.pfx ++ ":id_token", p.id_token, some env.oneYearFromNow, some (365 * 86400), none⟩,
           ⟨s.pfx ++ ":access_token", p.access_token, some env.oneYearFromNow, some (365 * 86400), none⟩,
           ⟨s.pfx ++ ":refresh_token", p.refresh_token, some env.oneYearFromNow, some (365 * 86400), none⟩,
           ⟨s.pfx ++ ":keep", "true", some env.oneYearFromNow, some (365 * 86400), none⟩] ∧
      ∀ c ∈ w, c.expires = some env.oneYearFromNow ∧ c.maxAge = some (365 * 86400)) ∧
    ((p.persist = some false ∨ p.persist = none) →
      w = [⟨s.pfx ++ ":id_token", p.id_token, none, none, none⟩,
           ⟨s.pfx ++ ":access_token", p.access_token, none, none, none⟩,
           ⟨s.pfx ++ ":refresh_token", p.refresh_token, none, none, none⟩] ∧
      ∀ c ∈ w, c.expires = none ∧ c.maxAge = none ∧ c.name ≠ s.pfx ++ ":keep") := by
  constructor
  · intro hp
    cases hc : env.client_side with
    | false => simp [setTokens, hc] at hs
    | true =>
      simp [setTokens, hc, hp] at hs
      obtain ⟨h1, h2⟩ := hs
      subst h2
      constructor
      · norm_num [DAY]
      · intro c hcm
        simp only [List.cons_append, List.nil_append, List.mem_cons,
          List.not_mem_nil, or_false] at hcm
        rcases hcm with h | h | h | h <;> subst h <;>
          refine ⟨rfl, ?_⟩ <;> norm_num [DAY]
  · intro hp
    cases hc : env.client_side with
    | false => simp [setTokens, hc] at hs
    | true =>
      rcases hp with hp | hp <;>
      · simp [setTokens, hc, hp] at hs
        obtain ⟨h1, h2⟩ := hs
        subst h2
        refine ⟨rfl, ?_⟩
        intro c hcm
        simp only [List.mem_cons, List.not_mem_nil, or_false] at hcm
        rcases hcm with h | h | h <;> subst h <;>
          exact ⟨rfl, rfl, string_append_ne s.pfx (by decide)⟩

/-- C2 witness: the persist-true branch at a concrete namespace and triplet. -/
theorem setTokens_persist_policy_witness :
    persistedWrites =
      [⟨"app" ++ ":id_token", "idv", some 32536000000, some (365 * 86400), none⟩,
       ⟨"app" ++ ":access_token", "accv", some 32536000000, some (365 * 86400), none⟩,
       ⟨"app" ++ ":refresh_token", "refv", some 32536000000, some (365 * 86400), none⟩,
       ⟨"app" ++ ":keep", "true", some 32536000000, some (365 * 86400), none⟩] ∧
    ∀ c ∈ persistedWrites,
      c.expires = some 32536000000 ∧ c.maxAge = some (365 * 86400) :=
  (setTokens_persist_policy envClient sampleProps freshStore persistedStore
      persistedWrites rfl).1 rfl

/-- C3 counterexample: with the claims decoding to a payload that does have
an exp field, equal to 0, and the clock at 2000000 ms (strictly after
exp * 1000 = 0), isExpired still returns false, against the claimed
"otherwise true if and only if now is strictly after exp * 1000". -/
theorem isExpired_strict_comparison_cex :
    isExpired decoderExpZero 2000000 sampleStore = false ∧
    (([(("exp"), 0)] : Claims).lookup ("exp") = some 0) ∧
    ((0 : Int) * 1000 < 2000000) := by decide

/-- C3 (amended): isExpired performs a fresh decode of the current id_token
(the cached user field is irrelevant); it returns false when the decoded
claims have no exp field, including the empty mapping of a decode failure,
and also when exp is present but 0 (the falsiness check); otherwise it
returns true exactly when the current time is strictly after exp * 1000
milliseconds. -/
theorem isExpired_spec (d : Decoder) (now : Int) (s : AuthCookieStorage) :
    (d s.id_token = Except.error () → isExpired d now s = false) ∧
    (∀ u, d s.id_token = Except.ok u →
      (u.lookup ("exp") = none → isExpired d now s = false) ∧
      (u.lookup ("exp") = some 0 → isExpired d now s = false) ∧
      (∀ e, u.lookup ("exp") = some e → e ≠ 0 →
        (isExpired d now s = true ↔ e * 1000 < now))) ∧
    (∀ u', isExpired d now { s with user := u' } = isExpired d now s) := by
  refine ⟨?_, ?_, ?_⟩
  · intro hd
    simp [isExpired, decode, hd]
  · intro u hd
    refine ⟨?_, ?_, ?_⟩
    · intro he
      simp [isExpired, decode, hd, he]
    · intro he
      simp [isExpired, decode, hd, he]
    · intro e he hne
      simp [isExpired, decode, hd, he, hne]
  · intro u'
    cases hd : d s.id_token <;> simp [isExpired, decode, hd]

/-- C3 witness: payload with exp 1000 seconds and the clock at 2000000 ms is
reported expired. -/
theorem isExpired_spec_witness :
    isExpired decoderExp1000 2000000 sampleStore = true :=
  (((isExpired_spec decoderExp1000 2000000 sampleStore).2.1
      [(("exp"), 1000)] rfl).2.2 1000 (by decide) (by decide)).mpr (by decide)

/-- C4: decode never propagates an exception: whenever the decoder fails on
the current id_token, the user field becomes the empty mapping; whenever it
succeeds, the user field becomes the decoded payload; in both cases the rest
of the instance is unchanged (the result is self with only user updated). -/
theorem decode_total_spec (d : Decoder) (s : AuthCookieStorage) :
    (d s.id_token = Except.error () →
      decode d s = { s with user := some ([] : Claims) }) ∧
    (∀ u, d s.id_token = Except.ok u →
      decode d s = { s with user := some u }) := by
  constructor
  · intro hd
    simp [decode, hd]
  · intro u hd
    simp [decode, hd]

/-- C4 witness: a decoder failing on every input yields the empty mapping. -/
theorem decode_total_spec_witness :
    decode decoderFail sampleStore = { sampleStore with user := some ([] : Claims) } :=
  (decode_total_spec decoderFail sampleStore).1 rfl

/-- C5 counterexample: outside a browser context setTokens does throw, but the
thrown message is the source's "Trying to set cookie in a server-side
environment", not the claimed "cannot set cookies outside a client context". -/
theorem setTokens_message_cex :
    setTokens envServer sampleProps freshStore =
      Except.error ("Trying to set cookie in a server-side environment") ∧
    ("Trying to set cookie in a server-side environment") ≠
      ("cannot set cookies outside a client context") := by
  constructor
  · rfl
  · decide

/-- C5 (amended): when no cookie-write capability is available, setTokens
throws an error with the message "Trying to set cookie in a server-side
environment" before writing any cookie or mutating any instance field (the
error result carries no state update and no writes), and the failure is not
recovered. -/
theorem setTokens_server_side_throws (env : Env) (p : SetTokenProps)
    (s : AuthCookieStorage) (h : env.client_side = false) :
    setTokens env p s =
      Except.error ("Trying to set cookie in a server-side environment") := by
  simp [setTokens, h]

/-- C5 witness: the throw at a concrete server-side environment. -/
theorem setTokens_server_side_throws_witness :
    setTokens envServer sampleProps freshStore =
      Except.error ("Trying to set cookie in a server-side environment") :=
  setTokens_server_side_throws envServer sampleProps freshStore rfl

/-- C6 counterexample: in a browser context the four cookies written by
clearTokens do not carry an expiration strictly before the current time: the
expiration is new Date() itself, so the strictly-in-the-past check fails on
every one of the four writes. -/
theorem clearTokens_past_expiry_cex :
    ((clearTokens envClient sampleStore).writes.all (fun c =>
      match c.expires with
      | some e => decide (e < envClient.now)
      | none => false)) = false ∧
    (clearTokens envClient sampleStore).writes.length = 4 := by decide

/-- C6 (amended): in a browser context clearTokens serializes exactly the four
namespaced cookie names (access, id, refresh, keep), each with the empty
value, an expiration equal to the current instant (new Date() at call time,
hence not after now, though not strictly in the past) and path "/". -/
theorem clearTokens_writes_client (env : Env) (s : AuthCookieStorage)
    (h : env.client_side = true) :
    (clearTokens env s).writes =
      [⟨s.pfx ++ ":access_token", "", some env.now, none, some ("/")⟩,
       ⟨s.pfx ++ ":id_token", "", some env.now, none, some ("/")⟩,
       ⟨s.pfx ++ ":refresh_token", "", some env.now, none, some ("/")⟩,
       ⟨s.pfx ++ ":keep", "", some env.now, none, some ("/")⟩] := by
  simp [clearTokens, h]

/-- C6 witness: the four writes at a concrete environment and namespace. -/
theorem clearTokens_writes_client_witness :
    (clearTokens envClient sampleStore).writes =
      [⟨"app" ++ ":access_token", "", some 1000, none, some ("/")⟩,
       ⟨"app" ++ ":id_token", "", some 1000, none, some ("/")⟩,
       ⟨"app" ++ ":refresh_token", "", some 1000, none, some ("/")⟩,
       ⟨"app" ++ ":keep", "", some 1000, none, some ("/")⟩] :=
  clearTokens_writes_client envClient sampleStore rfl

/-- C7: clearTokens in a browser context leaves every in-memory field of the
instance unchanged: the post-call state is the pre-call state itself (so pfx,
tokens, persist, user and cookie_string all keep their values), and the
returned value is that same unchanged instance; only cookie writes happen. -/
theorem clearTokens_frame (env : Env) (s : AuthCookieStorage)
    (h : env.client_side = true) :
    (clearTokens env s).state = s ∧ (clearTokens env s).ret = some s := by
  simp [clearTokens, h]

/-- C7 witness: the frame property at a concrete environment and instance. -/
theorem clearTokens_frame_witness :
    (clearTokens envClient sampleStore).state = sampleStore ∧
    (clearTokens envClient sampleStore).ret = some sampleStore :=
  clearTokens_frame envClient sampleStore rfl

/-- C8: getTokens with no argument on an instance with no cached cookie
string is a silent no-op: it returns self with every field unchanged. -/
theorem getTokens_no_source_noop (s : AuthCookieStorage)
    (h : s.cookie_string = none) :
    getTokens none s = s := by
  simp [getTokens, h, jsFalsyCookieStr]

/-- C8 witness: the no-op on a store constructed without a cookie string. -/
theorem getTokens_no_source_noop_witness :
    getTokens none freshStore = freshStore :=
  getTokens_no_source_noop freshStore rfl

/-- C9 counterexample: outside a browser context clearTokens returns
undefined, not the instance, so its return value differs from the
browser-context return value on the same instance. -/
theorem clearTokens_server_return_cex :
    (clearTokens envServer sampleStore).ret = none ∧
    (clearTokens envClient sampleStore).ret = some sampleStore ∧
    (clearTokens envServer sampleStore).ret ≠ (clearTokens envClient sampleStore).ret := by
  decide

/-- C9 (amended): outside a browser context clearTokens logs the error
"Trying to remove cookie in a server-side environment", performs no cookie
writes, leaves the instance unchanged, and returns undefined rather than the
instance. -/
theorem clearTokens_server_side (env : Env) (s : AuthCookieStorage)
    (h : env.client_side = false) :
    clearTokens env s =
      ⟨s, none, [], [("Trying to remove cookie in a server-side environment")]⟩ := by
  simp [clearTokens, h]

/-- C9 witness: the server-side behaviour at a concrete instance. -/
theorem clearTokens_server_side_witness :
    clearTokens envServer sampleStore =
      ⟨sampleStore, none, [], [("Trying to remove cookie in a server-side environment")]⟩ :=
  clearTokens_server_side envServer sampleStore rfl

/-- C10: when the decoded claims contain an exp field equal to 0, isExpired
returns false at every clock value: the falsiness check on exp treats 0 like
an absent claim, so a token that expired exactly at the epoch is reported as
not expired. -/
theorem isExpired_exp_zero (d : Decoder) (now : Int) (s : AuthCookieStorage)
    (u : Claims) (hd : d s.id_token = Except.ok u)
    (he : u.lookup ("exp") = some 0) :
    isExpired d now s = false := by
  simp [isExpired, decode, hd, he]

/-- C10 witness: a payload carrying exp 0 next to another claim is reported
not expired at a positive clock. -/
theorem isExpired_exp_zero_witness :
    isExpired decoderZeroIat 999 sampleStore = false :=
  isExpired_exp_zero decoderZeroIat 999 sampleStore
    [(("exp"), 0), (("iat"), 5)] rfl (by decide)

end AuthCookie
